import Mathlib

/-!
Verification of the listing-classification and entity-resolution core of the
tcg-research repository (`tcg_research/core/pokemon_filter.py`,
`tcg_research/core/entity_resolver.py`,
`tcg_research/core/enhanced_entity_resolver.py`).

The Python code works by `re.search` over a fixed library of patterns.  Every
pattern used by the embedded functions falls into a small fragment of regex:
word boundaries, case-insensitive literals, optional literals (`s?`),
whitespace gaps (`\s*`, `\s+`), digit runs (`\d+`) and ordered alternation.
We embed that fragment as a token list (`Tok`) with an executable matcher
that mirrors `re.search` semantics (leftmost position, ordered alternation,
greedy quantifiers; greediness is safe here because in every pattern of the
library a greedy run is never followed by a token that could consume part of
the run).  Python string operations (`lower`, `strip`, `split`, truthiness)
are modelled on `List Char` / `String` directly.  Python floats are modelled
by `ℚ` (all constants in the code are decimal literals and all arithmetic
stays well inside exact double range), and the entity resolver's integral
confidence by `ℤ`.
-/

namespace TCG

/-- ASCII word character, mirroring the regex class `\w` on the ASCII text
handled by this code base. -/
def wordChar (c : Char) : Bool := c.isAlphanum || c = '_'

/-- Whitespace, mirroring `\s` on the inputs handled here. -/
def isWs (c : Char) : Bool := c = ' ' || c = '\t' || c = '\n' || c = '\r'

/-- Python `str.lower()` on the ASCII range. -/
def pyLower (s : String) : List Char := s.toList.map Char.toLower

/-- `needle` occurs as a contiguous subsequence of `hay`
(Python `needle in hay`). -/
def containsSub (needle hay : List Char) : Bool :=
  if needle.isPrefixOf hay then true
  else
    match hay with
    | [] => needle.isEmpty
    | _ :: t => containsSub needle t

/-- Explicit, kernel-reducible `min` on `ℚ` (Python `min`). -/
def ratMin (a b : ℚ) : ℚ := if a ≤ b then a else b

/-- Explicit, kernel-reducible `max` on `ℚ` (Python `max`). -/
def ratMax (a b : ℚ) : ℚ := if b ≤ a then a else b

/-- Explicit, kernel-reducible `max` on `ℤ` (Python `max`). -/
def intMax (a b : Int) : Int := if b ≤ a then a else b

/-- Token language for the regex fragment used by the source patterns. -/
inductive Tok where
  /-- case-insensitive literal -/
  | lit : String → Tok
  /-- optional case-insensitive literal (`x?`), greedy -/
  | opt : String → Tok
  /-- `\s*`, greedy -/
  | ws : Tok
  /-- `\s+`, greedy -/
  | ws1 : Tok
  /-- `\d+`, greedy -/
  | digits : Tok
  /-- ordered alternation `(?:a|b|…)` -/
  | anyof : List (List Tok) → Tok
  /-- word boundary `\b` -/
  | wb : Tok

/-- Strip a case-insensitive literal from the head of the text, returning the
consumed original characters and the rest. -/
def stripLitCI : List Char → List Char → Option (List Char × List Char)
  | [], cs => some ([], cs)
  | _ :: _, [] => none
  | p :: ps, c :: cs =>
      if p.toLower = c.toLower then
        (stripLitCI ps cs).map (fun r => (c :: r.1, r.2))
      else none

/-- Match a token list at the current position.  `prev` is the character just
before the current position (for `\b`).  Returns the consumed characters and
the remaining text.  `fuel` strictly decreases on every call and is chosen
large enough by `search` that it never runs out. -/
def matchToks : Nat → List Tok → Option Char → List Char → Option (List Char × List Char)
  | 0, _, _, _ => none
  | _ + 1, [], _, cs => some ([], cs)
  | fuel + 1, t :: rest, prev, cs =>
    match t with
    | .wb =>
        let left := (prev.map wordChar).getD false
        let right := (cs.head?.map wordChar).getD false
        if left ≠ right then matchToks fuel rest prev cs else none
    | .lit s =>
        match stripLitCI s.toList cs with
        | some (tk, cs2) =>
            (matchToks fuel rest (tk.getLast? <|> prev) cs2).map (fun r => (tk ++ r.1, r.2))
        | none => none
    | .opt s =>
        match matchToks fuel (.lit s :: rest) prev cs with
        | some r => some r
        | none => matchToks fuel rest prev cs
    | .ws =>
        let tk := cs.takeWhile isWs
        let cs2 := cs.dropWhile isWs
        (matchToks fuel rest (tk.getLast? <|> prev) cs2).map (fun r => (tk ++ r.1, r.2))
    | .ws1 =>
        let tk := cs.takeWhile isWs
        if tk.isEmpty then none
        else
          let cs2 := cs.dropWhile isWs
          (matchToks fuel rest (tk.getLast? <|> prev) cs2).map (fun r => (tk ++ r.1, r.2))
    | .digits =>
        let tk := cs.takeWhile Char.isDigit
        if tk.isEmpty then none
        else
          let cs2 := cs.dropWhile Char.isDigit
          (matchToks fuel rest (tk.getLast? <|> prev) cs2).map (fun r => (tk ++ r.1, r.2))
    | .anyof alts =>
        alts.findSome? (fun alt => matchToks fuel (alt ++ rest) prev cs)

/-- `re.search`: try the pattern at each position, left to right; return the
text matched at the first position where it succeeds. -/
def searchFrom (fuel : Nat) (p : List Tok) : Option Char → List Char → Option (List Char)
  | prev, cs =>
    match matchToks fuel p prev cs with
    | some (tk, _) => some tk
    | none =>
      match cs with
      | [] => none
      | c :: rest => searchFrom fuel p (some c) rest

/-- Fuel bound: every `matchToks` call processes at least one constructor of
the (expanded) pattern along a single alternation path; every pattern in this
file expands to far fewer than 1000 constructors along any path. -/
def search (p : List Tok) (text : List Char) : Option (List Char) :=
  searchFrom 1000 p none text

def hasMatch (p : List Tok) (text : List Char) : Bool := (search p text).isSome

/-! ## pokemon_filter.py -/

/-- `ListingQuality` enum. -/
inductive ListingQuality where
  | EXCELLENT | GOOD | ACCEPTABLE | POOR | JUNK
deriving DecidableEq, Repr

/-- `CardType` enum. -/
inductive CardType where
  | SINGLE_CARD | SEALED_PRODUCT | BULK_LOT | ACCESSORY | DIGITAL_CODE | CUSTOM_PROXY | UNKNOWN
deriving DecidableEq, Repr

/-- `FilterResult` dataclass. -/
structure FilterResult where
  is_valid : Bool
  quality : ListingQuality
  card_type : CardType
  confidence_score : ℚ
  reasons : List String
  normalized_title : String
  detected_set : Option String := none
  detected_number : Option String := none
  detected_condition : Option String := none
  detected_grade : Option Nat := none
deriving DecidableEq, Repr

/-- `PokemonCardFilter.immediate_exclusions`: each entry is the original
pattern source (used verbatim in the rejection reason) together with its
token form. -/
def immediateExclusions : List (String × List Tok) := [
  ("\\b(?:tcg\\s*online|ptcgo|tcgo|digital\\s*code|code\\s*card|online\\s*code)\\b",
   [.wb, .anyof [[.lit "tcg", .ws, .lit "online"], [.lit "ptcgo"], [.lit "tcgo"],
      [.lit "digital", .ws, .lit "code"], [.lit "code", .ws, .lit "card"],
      [.lit "online", .ws, .lit "code"]], .wb]),
  ("\\b(?:unused\\s*code|redeem\\s*code|download\\s*code)\\b",
   [.wb, .anyof [[.lit "unused", .ws, .lit "code"], [.lit "redeem", .ws, .lit "code"],
      [.lit "download", .ws, .lit "code"]], .wb]),
  ("\\b(?:sleeves?|deck\\s*box|binder|playmat|dice|coin|token)\\b",
   [.wb, .anyof [[.lit "sleeve", .opt "s"], [.lit "deck", .ws, .lit "box"], [.lit "binder"],
      [.lit "playmat"], [.lit "dice"], [.lit "coin"], [.lit "token"]], .wb]),
  ("\\b(?:case|storage|organizer|folder|album)\\b",
   [.wb, .anyof [[.lit "case"], [.lit "storage"], [.lit "organizer"], [.lit "folder"],
      [.lit "album"]], .wb]),
  ("\\b(?:figure|plush|toy|statue|model)\\b",
   [.wb, .anyof [[.lit "figure"], [.lit "plush"], [.lit "toy"], [.lit "statue"],
      [.lit "model"]], .wb]),
  ("\\b(?:random\\s*(?:card|lot)|mystery\\s*(?:box|pack)|grab\\s*bag)\\b",
   [.wb, .anyof [[.lit "random", .ws, .anyof [[.lit "card"], [.lit "lot"]]],
      [.lit "mystery", .ws, .anyof [[.lit "box"], [.lit "pack"]]],
      [.lit "grab", .ws, .lit "bag"]], .wb]),
  ("\\b(?:choose\\s*your|pick\\s*your|you\\s*choose|complete\\s*your\\s*set)\\b",
   [.wb, .anyof [[.lit "choose", .ws, .lit "your"], [.lit "pick", .ws, .lit "your"],
      [.lit "you", .ws, .lit "choose"],
      [.lit "complete", .ws, .lit "your", .ws, .lit "set"]], .wb]),
  ("\\b(?:lot\\s*of\\s*\\d+|bulk\\s*lot|\\d+\\s*card\\s*lot)\\b",
   [.wb, .anyof [[.lit "lot", .ws, .lit "of", .ws, .digits],
      [.lit "bulk", .ws, .lit "lot"], [.digits, .ws, .lit "card", .ws, .lit "lot"]], .wb]),
  ("\\b(?:fake|proxy|custom|fan\\s*made|reproduction|reprint)\\b",
   [.wb, .anyof [[.lit "fake"], [.lit "proxy"], [.lit "custom"],
      [.lit "fan", .ws, .lit "made"], [.lit "reproduction"], [.lit "reprint"]], .wb]),
  ("\\b(?:not\\s*official|unofficial|knock\\s*off)\\b",
   [.wb, .anyof [[.lit "not", .ws, .lit "official"], [.lit "unofficial"],
      [.lit "knock", .ws, .lit "off"]], .wb]),
  ("\\b(?:damaged\\s*beyond|water\\s*damage|fire\\s*damage)\\b",
   [.wb, .anyof [[.lit "damaged", .ws, .lit "beyond"], [.lit "water", .ws, .lit "damage"],
      [.lit "fire", .ws, .lit "damage"]], .wb]),
  ("\\b(?:pieces|parts|torn|ripped\\s*up)\\b",
   [.wb, .anyof [[.lit "pieces"], [.lit "parts"], [.lit "torn"],
      [.lit "ripped", .ws, .lit "up"]], .wb]),
  ("\\b(?:read\\s*description|see\\s*pictures|as\\s*is|no\\s*returns)\\b",
   [.wb, .anyof [[.lit "read", .ws, .lit "description"], [.lit "see", .ws, .lit "pictures"],
      [.lit "as", .ws, .lit "is"], [.lit "no", .ws, .lit "returns"]], .wb]),
  ("\\b(?:broken|cracked|scratched\\s*up)\\b",
   [.wb, .anyof [[.lit "broken"], [.lit "cracked"], [.lit "scratched", .ws, .lit "up"]], .wb])]

/-- `_check_immediate_exclusions`. -/
def checkImmediateExclusions (text : List Char) : Bool × List String :=
  let reasons := (immediateExclusions.filter (fun p => hasMatch p.2 text)).map
    (fun p => "Matched exclusion pattern: " ++ p.1)
  (decide (0 < reasons.length), reasons)

/-- `modern_sets`, in Python dict insertion order. -/
def modernSets : List (String × List String) := [
  ("PAL", ["Paldea Evolved", "PAL"]),
  ("OBF", ["Obsidian Flames", "OBF"]),
  ("MEW", ["151", "MEW", "Pokemon 151"]),
  ("PAR", ["Paradox Rift", "PAR"]),
  ("SVI", ["Scarlet Violet Base", "SVI", "Scarlet & Violet"]),
  ("CRZ", ["Crown Zenith", "CRZ"]),
  ("SIT", ["Silver Tempest", "SIT"]),
  ("LOR", ["Lost Origin", "LOR"]),
  ("PGO", ["Pokemon GO", "PGO"]),
  ("ASR", ["Astral Radiance", "ASR"]),
  ("BRS", ["Brilliant Stars", "BRS"]),
  ("FST", ["Fusion Strike", "FST"]),
  ("CEL", ["Celebrations", "CEL"]),
  ("EVS", ["Evolving Skies", "EVS"]),
  ("CRE", ["Chilling Reign", "CRE"]),
  ("BST", ["Battle Styles", "BST"]),
  ("SHF", ["Shining Fates", "SHF"]),
  ("VIV", ["Vivid Voltage", "VIV"]),
  ("CPA", ["Champions Path", "CPA", "CP"]),
  ("DAA", ["Darkness Ablaze", "DAA"]),
  ("RCL", ["Rebel Clash", "RCL"]),
  ("SSH", ["Sword Shield Base", "SSH", "Sword & Shield"]),
  ("BASE", ["Base Set", "Base", "WOTC"]),
  ("JUN", ["Jungle", "JUN"]),
  ("FOS", ["Fossil", "FOS"]),
  ("B2", ["Base Set 2", "Base 2"]),
  ("TR", ["Team Rocket", "TR"]),
  ("GYM1", ["Gym Heroes", "GYM1"]),
  ("GYM2", ["Gym Challenge", "GYM2"]),
  ("NEO1", ["Neo Genesis", "NEO1"]),
  ("NEO2", ["Neo Discovery", "NEO2"]),
  ("NEO3", ["Neo Revelation", "NEO3"]),
  ("NEO4", ["Neo Destiny", "NEO4"])]

/-- `self.set_pattern`: one word-bounded, case-insensitive alternation over
all set names, in flattening order (the names are regex-literal text). -/
def setPattern : List Tok :=
  [.wb, .anyof ((modernSets.flatMap Prod.snd).map (fun n => [Tok.lit n])), .wb]

/-- `_extract_set_info`: leftmost match of `set_pattern` in the title, then
map the lower-cased matched text to the first set code one of whose names
contains it as a substring. -/
def extractSetInfo (title : List Char) : Option String :=
  match search setPattern title with
  | some m =>
      let found := m.map Char.toLower
      (modernSets.find? (fun cn =>
        cn.2.any (fun nm => containsSub found (nm.toList.map Char.toLower)))).map Prod.fst
  | none => none

/-- `r'#(\d+)'` at one position. -/
def tryHashNum : List Char → Option (List Char)
  | '#' :: rest =>
      let ds := rest.takeWhile Char.isDigit
      if ds.isEmpty then none else some ds
  | _ => none

/-- `r'(\d+)/\d+'` at one position (greedy digit run; shorter runs cannot be
followed by `/`, so no backtracking is needed). -/
def trySlashNum : List Char → Option (List Char)
  | c :: rest =>
      if c.isDigit then
        let ds := c :: rest.takeWhile Char.isDigit
        match rest.dropWhile Char.isDigit with
        | '/' :: a2 => if (a2.takeWhile Char.isDigit).isEmpty then none else some ds
        | _ => none
      else none
  | [] => none

/-- `r'no\.?\s*(\d+)'` (case-insensitive) at one position.  If the optional
dot is present but not consumed, `\s*` then `\d+` fail on it anyway, so the
greedy choice is exact. -/
def tryNoNum : List Char → Option (List Char)
  | c1 :: c2 :: rest =>
      if c1.toLower = 'n' ∧ c2.toLower = 'o' then
        let afterDot := match rest with
          | '.' :: r => r
          | _ => rest
        let ds := (afterDot.dropWhile isWs).takeWhile Char.isDigit
        if ds.isEmpty then none else some ds
      else none
  | _ => none

/-- `r'\b(\d{1,3})\b'` at one position: a shorter, backtracked run always ends
at a digit and fails the trailing `\b`, so the pattern matches exactly when
the whole digit run has length 1–3 and sits between word boundaries. -/
def tryBareNum (prev : Option Char) (cs : List Char) : Option (List Char) :=
  if (prev.map wordChar).getD false then none
  else
    let ds := cs.takeWhile Char.isDigit
    if 1 ≤ ds.length ∧ ds.length ≤ 3 ∧
        ¬ (((cs.drop ds.length).head?.map wordChar).getD false) then
      some ds
    else none

/-- Scan positions left to right with a position matcher. -/
def firstPos (f : List Char → Option (List Char)) : List Char → Option (List Char)
  | [] => f []
  | c :: rest =>
    match f (c :: rest) with
    | some r => some r
    | none => firstPos f rest

/-- Scan positions left to right with a matcher that also sees the previous
character. -/
def firstPosP (f : Option Char → List Char → Option (List Char)) :
    Option Char → List Char → Option (List Char)
  | prev, cs =>
    match f prev cs with
    | some r => some r
    | none =>
      match cs with
      | [] => none
      | c :: rest => firstPosP f (some c) rest

/-- `_extract_card_number`: the four patterns tried in order on the raw
title, returning the first capture group. -/
def extractCardNumber (title : List Char) : Option String :=
  match firstPos tryHashNum title with
  | some g => some (String.mk g)
  | none =>
    match firstPos trySlashNum title with
    | some g => some (String.mk g)
    | none =>
      match firstPos tryNoNum title with
      | some g => some (String.mk g)
      | none => (firstPosP tryBareNum none title).map String.mk

/-- `condition_map`, in Python dict insertion order. -/
def conditionMap : List (String × List String) := [
  ("mint", ["mint", "mt", "gem mint", "perfect"]),
  ("near_mint", ["near mint", "nm", "near-mint", "excellent"]),
  ("lightly_played", ["lightly played", "lp", "light play", "very good"]),
  ("moderately_played", ["moderately played", "mp", "played", "good"]),
  ("heavily_played", ["heavily played", "hp", "poor"]),
  ("damaged", ["damaged", "dmg", "fair"])]

/-- `_extract_condition`: first condition one of whose escaped keywords
matches between word boundaries. -/
def extractCondition (text : List Char) : Option String :=
  (conditionMap.find? (fun cp =>
    cp.2.any (fun p => hasMatch [.wb, .lit p, .wb] text))).map Prod.fst

/-- `grading_patterns`, in Python dict insertion order. -/
def gradingPatterns : List (List Tok) := [
  [.wb, .lit "psa", .ws, .anyof [[.lit "10"], [.lit "9"], [.lit "8"], [.lit "7"], [.lit "6"],
    [.lit "5"], [.lit "4"], [.lit "3"], [.lit "2"], [.lit "1"]], .wb],
  [.wb, .anyof [[.lit "bgs"], [.lit "beckett"]], .ws,
   .anyof [[.lit "10"], [.lit "9.5"], [.lit "9"], [.lit "8.5"], [.lit "8"], [.lit "7.5"],
     [.lit "7"], [.lit "6.5"], [.lit "6"]], .wb],
  [.wb, .lit "cgc", .ws,
   .anyof [[.lit "10"], [.lit "9.5"], [.lit "9"], [.lit "8.5"], [.lit "8"], [.lit "7.5"],
     [.lit "7"], [.lit "6.5"], [.lit "6"]], .wb]]

/-- Digit run to a natural number. -/
def digitsToNat (ds : List Char) : Nat :=
  ds.foldl (fun n c => 10 * n + (c.toNat - 48)) 0

/-- `_extract_grade`: first grading pattern that matches; from the matched
text, `int(float(·))` of the first `\d+(\.\d+)?` group equals the value of
its leading digit run (fractional grades truncate down). -/
def extractGrade (text : List Char) : Option Nat :=
  (gradingPatterns.findSome? (fun p => search p text)).map
    (fun m => digitsToNat ((m.dropWhile (fun c => ¬ c.isDigit)).takeWhile Char.isDigit))

/-- `_detect_card_type`, first match wins in source order.  The text is
already lower-cased, so case-insensitive literal matching coincides with the
source's case-sensitive search. -/
def detectCardType (text : List Char) : CardType :=
  if hasMatch [.wb, .anyof [[.lit "code"], [.lit "tcg", .ws, .lit "online"],
      [.lit "digital"]], .wb] text then
    .DIGITAL_CODE
  else if ([
      [Tok.wb, .anyof [[.lit "booster", .ws, .anyof [[.lit "pack"], [.lit "box"]]],
        [.lit "elite", .ws, .lit "trainer"], [.lit "theme", .ws, .lit "deck"]], .wb],
      [Tok.wb, .anyof [[.lit "tin"], [.lit "collection", .ws, .lit "box"],
        [.lit "starter", .ws, .lit "deck"]], .wb],
      [Tok.wb, .anyof [[.lit "sealed"], [.lit "unopened"],
        [.lit "factory", .ws, .lit "sealed"]], .wb]] : List (List Tok)).any
      (fun p => hasMatch p text) then
    .SEALED_PRODUCT
  else if ([
      [Tok.wb, .anyof [[.lit "lot", .ws, .lit "of"], [.digits, .ws, .lit "card", .opt "s"],
        [.lit "bulk"], [.lit "random"]], .wb],
      [Tok.wb, .anyof [[.lit "mixed", .ws, .lit "lot"], [.lit "card", .ws, .lit "lot"]],
        .wb]] : List (List Tok)).any (fun p => hasMatch p text) then
    .BULK_LOT
  else if ([
      [Tok.wb, .anyof [[.lit "sleeve"], [.lit "protector"], [.lit "binder"], [.lit "case"],
        [.lit "box"]], .wb],
      [Tok.wb, .anyof [[.lit "playmat"], [.lit "dice"], [.lit "coin"], [.lit "counter"]],
        .wb]] : List (List Tok)).any (fun p => hasMatch p text) then
    .ACCESSORY
  else if ([
      [Tok.wb, .anyof [[.lit "custom"], [.lit "proxy"], [.lit "fan", .ws, .lit "made"],
        [.lit "ooak"]], .wb],
      [Tok.wb, .anyof [[.lit "altered"], [.lit "painted"],
        [.lit "custom", .ws, .lit "art"]], .wb]] : List (List Tok)).any
      (fun p => hasMatch p text) then
    .CUSTOM_PROXY
  else if ([
      [Tok.wb, .anyof [[.lit "pokemon", .ws, .lit "card"], [.lit "trading", .ws, .lit "card"],
        [.lit "single", .ws, .lit "card"]], .wb],
      [Tok.wb, .anyof [[.lit "holo"], [.lit "rare"], [.lit "common"], [.lit "uncommon"]], .wb],
      [Tok.wb, .anyof [[.lit "ex"], [.lit "gx"], [.lit "v"], [.lit "vmax"], [.lit "vstar"]],
        .wb]] : List (List Tok)).any (fun p => hasMatch p text) then
    .SINGLE_CARD
  else
    .UNKNOWN

/-- `quality_positive` indicator categories, in Python dict insertion order.
Each category carries its pattern list; all patterns have only a leading
word boundary, as in the source. -/
def qualityPositive : List (String × List (List Tok)) := [
  ("professional_photos",
   [[.wb, .lit "professional", .ws, .lit "photo"], [.wb, .lit "high", .ws, .lit "res"],
    [.wb, .lit "clear", .ws, .lit "image"], [.wb, .lit "multiple", .ws, .lit "angle"],
    [.wb, .lit "front", .ws, .lit "and", .ws, .lit "back"]]),
  ("detailed_condition",
   [[.wb, .lit "centering"], [.wb, .lit "corner", .opt "s"], [.wb, .lit "edge", .opt "s"],
    [.wb, .lit "surface"], [.wb, .lit "no", .ws, .lit "crease", .opt "s"],
    [.wb, .lit "no", .ws, .lit "bend", .opt "s"],
    [.wb, .lit "no", .ws, .lit "scratche", .opt "s"]]),
  ("seller_quality",
   [[.wb, .lit "top", .ws, .lit "rated"], [.wb, .lit "fast", .ws, .lit "shipping"],
    [.wb, .lit "free", .ws, .lit "shipping"], [.wb, .lit "tracked", .ws, .lit "shipping"],
    [.wb, .lit "insured"]]),
  ("authenticity",
   [[.wb, .lit "official"], [.wb, .lit "original"], [.wb, .lit "authentic"],
    [.wb, .lit "genuine"], [.wb, .lit "not", .ws, .lit "proxy"],
    [.wb, .lit "not", .ws, .lit "fake"]])]

/-- `quality_negative` indicator categories, in Python dict insertion order.
The pattern `\b\?\?+` is embedded as a word boundary followed by two question
marks: the extra `+` repetition never changes whether a match exists. -/
def qualityNegative : List (String × List (List Tok)) := [
  ("poor_description",
   [[.wb, .lit "as", .ws, .lit "is"], [.wb, .lit "no", .ws, .lit "return", .opt "s"],
    [.wb, .lit "sold", .ws, .lit "as", .ws, .lit "seen"],
    [.wb, .lit "read", .ws, .lit "description"], [.wb, .lit "check", .ws, .lit "photo"]]),
  ("condition_issues",
   [[.wb, .lit "scuff", .opt "s"], [.wb, .lit "scratche", .opt "s"],
    [.wb, .lit "dent", .opt "s"], [.wb, .lit "bend", .opt "s"], [.wb, .lit "wear"],
    [.wb, .lit "used"], [.wb, .lit "damage"]]),
  ("unclear_listing",
   [[.wb, .lit "??"], [.wb, .lit "might", .ws, .lit "be"],
    [.wb, .lit "not", .ws, .lit "sure"],
    [.wb, .lit "think", .ws, .lit "it", .ws, .lit "is"],
    [.wb, .lit "believe", .ws, .lit "it"]])]

/-- `_calculate_quality_score`: base 0.5, then one `+0.1` per matching
positive pattern, one `−0.15` per matching negative pattern, the price
penalties, the length bonus, clamped to the unit interval. -/
def calculateQualityScore (text : List Char) (price : Option ℚ) : ℚ :=
  let score : ℚ := 0.5
  let score := qualityPositive.foldl
    (fun s cat => cat.2.foldl (fun s2 p => if hasMatch p text then s2 + 0.1 else s2) s) score
  let score := qualityNegative.foldl
    (fun s cat => cat.2.foldl (fun s2 p => if hasMatch p text then s2 - 0.15 else s2) s) score
  let score := match price with
    | some pr => if pr < 1 then score - 0.2 else if 10000 < pr then score - 0.3 else score
    | none => score
  let score := if 100 < text.length then score + 0.1 else score
  ratMax 0 (ratMin 1 score)

/-- `_score_to_quality`. -/
def scoreToQuality (score : ℚ) : ListingQuality :=
  if 0.8 ≤ score then .EXCELLENT
  else if 0.65 ≤ score then .GOOD
  else if 0.5 ≤ score then .ACCEPTABLE
  else if 0.3 ≤ score then .POOR
  else .JUNK

/-- Python truthiness of an optional string: `None` and `""` are falsy. -/
def pyTruthy : Option String → Bool
  | some s => s ≠ ""
  | none => false

/-- `_calculate_confidence` of the filter. -/
def calculateFilterConfidence (ct : CardType) (detected_set detected_number : Option String)
    (quality_score : ℚ) : ℚ :=
  let confidence : ℚ := 0
  let confidence := confidence +
    (if ct = .SINGLE_CARD then 0.4
     else if ct = .SEALED_PRODUCT then 0.3
     else if ct = .BULK_LOT ∨ ct = .ACCESSORY then 0.2
     else 0.1)
  let confidence := if pyTruthy detected_set then confidence + 0.3 else confidence
  let confidence := if pyTruthy detected_number then confidence + 0.2 else confidence
  let confidence := confidence + quality_score * 0.1
  ratMin 1 confidence

/-- Python `str.strip()`. -/
def stripWs (cs : List Char) : List Char :=
  ((cs.dropWhile isWs).reverse.dropWhile isWs).reverse

/-- `re.sub` of one-or-more whitespace by a single space. -/
def collapseWs : List Char → List Char
  | [] => []
  | [c] => if isWs c then [' '] else [c]
  | c1 :: c2 :: rest =>
      if isWs c1 ∧ isWs c2 then collapseWs (c2 :: rest)
      else (if isWs c1 then ' ' else c1) :: collapseWs (c2 :: rest)

/-- `re.sub` of a run of two or more copies of `ch` by a single copy:
equivalently, squeeze consecutive duplicates of `ch`. -/
def squeezeRuns (ch : Char) : List Char → List Char
  | [] => []
  | [c] => [c]
  | c1 :: c2 :: rest =>
      if c1 = ch ∧ c2 = ch then squeezeRuns ch (c2 :: rest)
      else c1 :: squeezeRuns ch (c2 :: rest)

/-- Strip a case-sensitive literal from the head of the text. -/
def stripLitCS : List Char → List Char → Option (List Char × List Char)
  | [], cs => some ([], cs)
  | _ :: _, [] => none
  | p :: ps, c :: cs =>
      if p = c then (stripLitCS ps cs).map (fun r => (c :: r.1, r.2)) else none

/-- `re.sub(r'\b<tgt>\b', repl, ·)` for a target made of word characters
(every target used by the source is), replacing all occurrences left to
right.  `fuel` is the text length: each step consumes at least one
character. -/
def wordSubAux (tgt repl : List Char) (caseIns : Bool) :
    Nat → Option Char → List Char → List Char
  | 0, _, cs => cs
  | _ + 1, _, [] => []
  | fuel + 1, prev, c :: rest =>
      let attempt :=
        if (prev.map wordChar).getD false then none
        else
          match (if caseIns then stripLitCI tgt (c :: rest) else stripLitCS tgt (c :: rest)) with
          | some (tk, cs2) =>
              if (cs2.head?.map wordChar).getD false then none else some (tk, cs2)
          | none => none
      match attempt with
      | some (tk, cs2) => repl ++ wordSubAux tgt repl caseIns fuel (tk.getLast? <|> prev) cs2
      | none => c :: wordSubAux tgt repl caseIns fuel (some c) rest

def wordSub (tgt repl : String) (caseIns : Bool) (cs : List Char) : List Char :=
  wordSubAux tgt.toList repl.toList caseIns (cs.length + 1) none cs

/-- `_normalize_title`. -/
def normalizeTitle (title : String) : String :=
  let n := collapseWs (stripWs title.toList)
  let n := squeezeRuns '!' n
  let n := squeezeRuns '?' n
  let n := squeezeRuns '*' n
  let n := wordSub "pokemon" "Pokemon" true n
  String.mk n

/-- The `full_text` built by `filter_listing`. -/
def fullTextOf (title description : String) : List Char :=
  pyLower (title ++ " " ++ description)

/-- `PokemonCardFilter.filter_listing`.  `min_confidence_score` is 0.7. -/
def filterListing (title : String) (description : String := "")
    (price : Option ℚ := none) : FilterResult :=
  let fullText := fullTextOf title description
  let chk := checkImmediateExclusions fullText
  if chk.1 then
    { is_valid := false
      quality := .JUNK
      card_type := .UNKNOWN
      confidence_score := 0
      reasons := chk.2
      normalized_title := normalizeTitle title }
  else
    let card_type := detectCardType fullText
    let detected_set := extractSetInfo title.toList
    let detected_number := extractCardNumber title.toList
    let detected_condition := extractCondition fullText
    let detected_grade := extractGrade fullText
    let quality_score := calculateQualityScore fullText price
    let quality_level := scoreToQuality quality_score
    let confidence := calculateFilterConfidence card_type detected_set detected_number quality_score
    let is_valid := decide (quality_level ≠ ListingQuality.JUNK) &&
      decide ((0.7 : ℚ) ≤ confidence) && decide (card_type ≠ CardType.UNKNOWN)
    { is_valid
      quality := quality_level
      card_type
      confidence_score := confidence
      reasons := []
      normalized_title := normalizeTitle title
      detected_set
      detected_number
      detected_condition
      detected_grade }

/-! ## entity_resolver.py -/

/-- `CardEntity` model. -/
structure CardEntity where
  canonical_sku : String
  set_code : String
  card_number : String
  name_normalized : String
  rarity : String
  finish : String := "Regular"
  grade : Option Int := none
  language : String := "EN"
  confidence : Int
deriving DecidableEq, Repr

/-- The fuzzy-matching primitive `fuzzywuzzy.process.extract(query, choices,
limit=1)`, abstracted: it may return a best choice with its similarity score.
The third-party library is outside this repository, so the resolver is
parameterized over it; none of the verified properties depend on its
behaviour. -/
abbrev Fuzzy := String → List String → Option (String × Int)

def RARITY_MAPPINGS : List (String × String) := [
  ("common", "Common"), ("uncommon", "Uncommon"), ("rare", "Rare"),
  ("ultra rare", "Ultra Rare"), ("secret rare", "Secret Rare"),
  ("rainbow rare", "Rainbow Rare"), ("gold rare", "Gold Rare"),
  ("full art", "Full Art"), ("alternate art", "Alt Art"),
  ("promo", "Promo"), ("special", "Special")]

def FINISH_MAPPINGS : List (String × String) := [
  ("regular", "Regular"), ("reverse holo", "Reverse Holo"), ("holo", "Holo"),
  ("full art", "Full Art"), ("alt art", "Alt Art"), ("rainbow", "Rainbow"),
  ("gold", "Gold"), ("textured", "Textured")]

/-- Python `str.title()` on ASCII: an alphabetic character is upper-cased
when the previous character is not alphabetic, lower-cased otherwise. -/
def pyTitle (cs : List Char) : List Char :=
  ((cs.foldl (fun (acc : List Char × Bool) c =>
    if c.isAlpha then
      ((if acc.2 then c.toLower else c.toUpper) :: acc.1, true)
    else (c :: acc.1, false)) ([], false)).1).reverse

/-- `_normalize_rarity` (only reached with a non-empty argument; the
`if not rarity` guard is kept).  The dict lookup `RARITY_MAPPINGS[k]` for the
fuzzy winner is modelled with a defaulted lookup — `process.extract` only
returns elements of the given choices, so the default is never taken. -/
def normalizeRarity (fz : Fuzzy) (rarity : String) : Option String :=
  if rarity = "" then none
  else
    let rarity_lower := stripWs (pyLower rarity)
    match RARITY_MAPPINGS.find? (fun kv => containsSub kv.1.toList rarity_lower) with
    | some kv => some kv.2
    | none =>
      match fz (String.mk rarity_lower) (RARITY_MAPPINGS.map Prod.fst) with
      | some (k, score) =>
          if 80 < score then
            some (((RARITY_MAPPINGS.find? (fun kv => kv.1 = k)).map Prod.snd).getD
              (String.mk (pyTitle rarity.toList)))
          else some (String.mk (pyTitle rarity.toList))
      | none => some (String.mk (pyTitle rarity.toList))

/-- `_normalize_finish`. -/
def normalizeFinish (fz : Fuzzy) (finish : String) : String :=
  if finish = "" then "Regular"
  else
    let finish_lower := stripWs (pyLower finish)
    match FINISH_MAPPINGS.find? (fun kv => containsSub kv.1.toList finish_lower) with
    | some kv => kv.2
    | none =>
      match fz (String.mk finish_lower) (FINISH_MAPPINGS.map Prod.fst) with
      | some (k, score) =>
          if 80 < score then
            ((FINISH_MAPPINGS.find? (fun kv => kv.1 = k)).map Prod.snd).getD
              (String.mk (pyTitle finish.toList))
          else String.mk (pyTitle finish.toList)
      | none => String.mk (pyTitle finish.toList)

/-- The CJK ranges of `_is_english_card`'s Japanese-character pattern. -/
def japaneseChar (c : Char) : Bool :=
  (0x3040 ≤ c.toNat && c.toNat ≤ 0x309F) || (0x30A0 ≤ c.toNat && c.toNat ≤ 0x30FF) ||
  (0x4E00 ≤ c.toNat && c.toNat ≤ 0x9FAF)

def nonEnglishIndicators : List String :=
  ["japanese", "jp", "日本語", "korean", "kr", "chinese", "cn",
   "français", "deutsch", "español", "italiano", "português"]

/-- Python `x or ""` for an optional string. -/
def pyOrStr : Option String → String
  | some s => s
  | none => ""

/-- `_is_english_card`. -/
def isEnglishCard (name : String) (set_info : Option String) : Bool :=
  if name.toList.any japaneseChar then false
  else if (match set_info with
    | some s => s ≠ "" && s.toList.any japaneseChar
    | none => false) then false
  else
    let text_to_check := pyLower (name ++ " " ++ pyOrStr set_info)
    ! nonEnglishIndicators.any (fun ind => containsSub ind.toList text_to_check)

/-- The leftmost-match removal step of `re.sub(r'\s*\(.*?\)\s*', '', ·)` at
one position: optional whitespace, an opening parenthesis, the (lazy) run up
to the first closing parenthesis, then trailing whitespace. -/
def tryParen (cs : List Char) : Option (List Char) :=
  match cs.dropWhile isWs with
  | '(' :: r =>
      match r.dropWhile (· ≠ ')') with
      | ')' :: r2 => some (r2.dropWhile isWs)
      | _ => none
  | _ => none

def removeParensAux : Nat → List Char → List Char
  | 0, cs => cs
  | _ + 1, [] => []
  | fuel + 1, c :: rest =>
      match tryParen (c :: rest) with
      | some cs2 => removeParensAux fuel cs2
      | none => c :: removeParensAux fuel rest

/-- `re.sub(r'\s*\(.*?\)\s*', '', ·)`: remove every parenthesised aside with
its surrounding whitespace. -/
def removeParens (cs : List Char) : List Char := removeParensAux (cs.length + 1) cs

/-- `re.sub(r'\s*-\s*.*$', '', ·)`: everything from the first dash (and the
whitespace run just before it) to the end is removed. -/
def removeDashSuffix (cs : List Char) : List Char :=
  if cs.any (· = '-') then
    ((cs.takeWhile (· ≠ '-')).reverse.dropWhile isWs).reverse
  else cs

/-- `_normalize_name`. -/
def normalizeName (name : String) : String :=
  let n := collapseWs (stripWs name.toList)
  let n := removeParens n
  let n := removeDashSuffix n
  let n := wordSub "ex" "ex" true n
  let n := wordSub "EX" "ex" false n
  let n := wordSub "GX" "GX" true n
  let n := wordSub "V" "V" false n
  let n := wordSub "VMAX" "VMAX" true n
  let n := wordSub "VSTAR" "VSTAR" true n
  String.mk (stripWs n)

/-- `r'\b([A-Z]{2,4}\d{1,3}[a-z]?)\b'` (case-insensitive) at one position.
Backtracked shorter letter/digit runs always fail on the following word
character, so the run lengths are forced. -/
def trySetCode1 (prev : Option Char) (cs : List Char) : Option (List Char) :=
  if (prev.map wordChar).getD false then none
  else
    let ls := cs.takeWhile Char.isAlpha
    if 2 ≤ ls.length ∧ ls.length ≤ 4 then
      let r1 := cs.dropWhile Char.isAlpha
      let ds := r1.takeWhile Char.isDigit
      if 1 ≤ ds.length ∧ ds.length ≤ 3 then
        match r1.dropWhile Char.isDigit with
        | c :: r3 =>
            if c.isAlpha then
              if (r3.head?.map wordChar).getD false then none
              else some (ls ++ ds ++ [c])
            else if wordChar c then none
            else some (ls ++ ds)
        | [] => some (ls ++ ds)
      else none
    else none

/-- `r'\b([A-Z]{2,3})\b'` (case-insensitive) at one position. -/
def trySetCode3 (prev : Option Char) (cs : List Char) : Option (List Char) :=
  if (prev.map wordChar).getD false then none
  else
    let ls := cs.takeWhile Char.isAlpha
    if 2 ≤ ls.length ∧ ls.length ≤ 3 ∧
        ¬ (((cs.drop ls.length).head?.map wordChar).getD false) then
      some ls
    else none

/-- `r'\b(Base Set|Jungle|Fossil|Team Rocket)\b'` (case-insensitive). -/
def classicSetPat : List Tok :=
  [.wb, .anyof [[.lit "Base Set"], [.lit "Jungle"], [.lit "Fossil"], [.lit "Team Rocket"]], .wb]

/-- Python `str.split()` (split on whitespace, dropping empty pieces). -/
def splitWsAux : Nat → List Char → List (List Char)
  | 0, _ => []
  | _ + 1, [] => []
  | fuel + 1, cs =>
      match cs.dropWhile isWs with
      | [] => []
      | c :: r =>
          ((c :: r).takeWhile (fun x => ¬ isWs x)) ::
            splitWsAux fuel ((c :: r).dropWhile (fun x => ¬ isWs x))

def splitWs (cs : List Char) : List (List Char) := splitWsAux (cs.length + 1) cs

/-- `_extract_set_code` (only reached with a non-empty argument). -/
def extractSetCode (set_info : String) : Option String :=
  if set_info = "" then none
  else
    match firstPosP trySetCode1 none set_info.toList with
    | some m => some (String.mk (m.map Char.toUpper))
    | none =>
      match search classicSetPat set_info.toList with
      | some m => some (String.mk (m.map Char.toUpper))
      | none =>
        match firstPosP trySetCode3 none set_info.toList with
        | some m => some (String.mk (m.map Char.toUpper))
        | none =>
          match splitWs set_info.toList with
          | w :: _ =>
              if w.length ≤ 6 ∧ w.any Char.isDigit then
                some (String.mk (w.map Char.toUpper))
              else none
          | [] => none

/-- `r'([A-Z]?\d+)'` at one position of the upper-cased number string. -/
def tryNumberTok (cs : List Char) : Option (List Char) :=
  match cs with
  | c :: rest =>
      if 'A' ≤ c ∧ c ≤ 'Z' then
        let ds := rest.takeWhile Char.isDigit
        if ds.isEmpty then none else some (c :: ds)
      else
        let ds := cs.takeWhile Char.isDigit
        if ds.isEmpty then none else some ds
  | [] => none

/-- `_normalize_number`. -/
def normalizeNumber (number : String) : Option String :=
  if number = "" then none
  else (firstPos tryNumberTok (number.toList.map Char.toUpper)).map String.mk

def suspiciousConfPatterns : List String := ["?", "unknown", "error", "n/a"]

/-- `EntityResolver._calculate_confidence`.  All values are integral, so the
Python float is modelled by `ℤ`. -/
def calcConfidence (name : String) (set_info number rarity : Option String) : Int :=
  let confidence : Int := 100
  let confidence := if pyTruthy set_info then confidence else confidence - 20
  let confidence := if pyTruthy number then confidence else confidence - 15
  let confidence := if pyTruthy rarity then confidence else confidence - 10
  let confidence := if (splitWs name.toList).length < 2 then confidence - 10 else confidence
  let text := pyLower (name ++ " " ++ pyOrStr set_info ++ " " ++ pyOrStr number ++ " " ++
    pyOrStr rarity)
  let confidence := suspiciousConfPatterns.foldl
    (fun c p => if containsSub p.toList text then c - 15 else c) confidence
  intMax 0 confidence

/-- The `set_code` binding of `resolve_card`
(`self._extract_set_code(set_info) if set_info else None`). -/
def setCodeOf (set_info : Option String) : Option String :=
  match set_info with
  | some s => if s ≠ "" then extractSetCode s else none
  | none => none

/-- The `number_norm` binding of `resolve_card`. -/
def numberNormOf (number : Option String) : Option String :=
  match number with
  | some s => if s ≠ "" then normalizeNumber s else none
  | none => none

/-- The `rarity_norm` binding of `resolve_card`. -/
def rarityNormOf (fz : Fuzzy) (rarity : Option String) : Option String :=
  match rarity with
  | some s => if s ≠ "" then normalizeRarity fz s else none
  | none => none

/-- The `finish_norm` binding of `resolve_card`. -/
def finishNormOf (fz : Fuzzy) (finish : Option String) : String :=
  match finish with
  | some s => if s ≠ "" then normalizeFinish fz s else "Regular"
  | none => "Regular"

/-- Python `x or d` for an optional string (both `None` and `""` fall back). -/
def pyOrDefault (o : Option String) (d : String) : String :=
  match o with
  | some s => if s = "" then d else s
  | none => d

/-- Python `str.replace(" ", "_")`. -/
def replaceSpaces (s : String) : String :=
  String.mk (s.toList.map (fun c => if c = ' ' then '_' else c))

/-- `EntityResolver.resolve_card` (`confidence_threshold` is 85; the unused
`source` argument is dropped). -/
def resolveCard (fz : Fuzzy) (name : String) (set_info : Option String := none)
    (number : Option String := none) (rarity : Option String := none)
    (finish : Option String := none) (grade : Option Int := none) : Option CardEntity :=
  if ! isEnglishCard name set_info then none
  else
    let name_norm := normalizeName name
    let rarity_norm := rarityNormOf fz rarity
    let finish_norm := finishNormOf fz finish
    match setCodeOf set_info, numberNormOf number with
    | some sc, some nn =>
      if name_norm = "" ∨ sc = "" ∨ nn = "" then none
      else
        let confidence := calcConfidence name set_info number rarity
        if confidence < 85 then none
        else
          let sku_parts := [sc, nn, replaceSpaces name_norm, pyOrDefault rarity_norm "Unknown"]
          let sku_parts := sku_parts ++
            (if finish_norm ≠ "Regular" then [replaceSpaces finish_norm] else [])
          let sku_parts := sku_parts ++
            (match grade with
             | some g => if g ≠ 0 then ["PSA" ++ toString g] else []
             | none => [])
          some {
            canonical_sku := String.intercalate "_" sku_parts
            set_code := sc
            card_number := nn
            name_normalized := name_norm
            rarity := pyOrDefault rarity_norm "Unknown"
            finish := finish_norm
            grade := grade
            language := "EN"
            confidence := confidence }
    | _, _ => none

/-! ## enhanced_entity_resolver.py -/

/-- `EnhancedCardEntity` model. -/
structure EnhancedCardEntity extends CardEntity where
  filter_quality : ListingQuality
  card_type : CardType
  filter_confidence : ℚ
  source_title : String
  validation_reasons : List String
  detected_condition : Option String := none
  price_estimate : Option ℚ := none
  market_tier : Option String := none
deriving DecidableEq, Repr

/-- `FilteredEntityResolver.resolve_ebay_listing`, steps 1–2 (the validity
gate and the card-type allowlist).  Steps 3–5 (field extraction, the call to
the base resolver and the final enhancement/validation) run only after both
gates pass; they are abstracted as the continuation `rest`, over which every
property proved here is universally quantified — the verified claim concerns
exactly the gates that precede them.  The unused `condition`/`seller_info`
arguments are dropped. -/
def resolveEbayListing (rest : FilterResult → Option EnhancedCardEntity)
    (title : String) (description : String := "") (price : Option ℚ := none) :
    Option EnhancedCardEntity :=
  let filter_result := filterListing title description price
  if ! filter_result.is_valid ∨ filter_result.quality = ListingQuality.JUNK then none
  else if ¬ (filter_result.card_type = CardType.SINGLE_CARD ∨
      filter_result.card_type = CardType.SEALED_PRODUCT) then none
  else rest filter_result

/-! ## Spec-side definitions

These definitions follow the wording of the specification (not the source)
and are compared with the embedded source functions in the refinement
theorems below. -/

/-- The SKU construction exactly as claim C1 words it, reading the parts off
a returned entity: underscore-join of set code, number, name with spaces
replaced by underscores, and rarity; the finish appended only when it is not
"Regular"; the segment `PSA<grade>` appended only when a grade is present. -/
def claimSkuC1 (e : CardEntity) : String :=
  String.intercalate "_"
    ([e.set_code, e.card_number, replaceSpaces e.name_normalized, e.rarity] ++
      (if e.finish ≠ "Regular" then [replaceSpaces e.finish] else []) ++
      (match e.grade with
       | some g => ["PSA" ++ toString g]
       | none => []))

/-- The amended SKU construction: as `claimSkuC1`, except that the grade
segment is appended only when the grade is present and non-zero (Python's
`if grade:` truthiness). -/
def amendedSkuC1 (e : CardEntity) : String :=
  String.intercalate "_"
    ([e.set_code, e.card_number, replaceSpaces e.name_normalized, e.rarity] ++
      (if e.finish ≠ "Regular" then [replaceSpaces e.finish] else []) ++
      (match e.grade with
       | some g => if g ≠ 0 then ["PSA" ++ toString g] else []
       | none => []))

/-- Quality score as claim C7 words it: 0.5, plus 0.1 for each matched
positive-quality indicator category, minus 0.15 per matched negative
indicator category, the price penalties, the length bonus, clamped. -/
def claimQualityScoreC7 (text : List Char) (price : Option ℚ) : ℚ :=
  let pos : ℚ := 0.1 *
    ((qualityPositive.countP (fun cat => cat.2.any (fun p => hasMatch p text))) : ℚ)
  let neg : ℚ := 0.15 *
    ((qualityNegative.countP (fun cat => cat.2.any (fun p => hasMatch p text))) : ℚ)
  let priceAdj : ℚ := match price with
    | some pr => if pr < 1 then -0.2 else if 10000 < pr then -0.3 else 0
    | none => 0
  let lenBonus : ℚ := if 100 < text.length then 0.1 else 0
  ratMax 0 (ratMin 1 (0.5 + pos - neg + priceAdj + lenBonus))

/-- Quality score as amended: 0.5, plus 0.1 for each matched positive
indicator pattern (counted per pattern, across all categories), minus 0.15
per matched negative indicator pattern, the price penalties, the length
bonus, clamped. -/
def amendedQualityScoreC7 (text : List Char) (price : Option ℚ) : ℚ :=
  let pos : ℚ := 0.1 *
    (((qualityPositive.map (fun cat => cat.2.countP (fun p => hasMatch p text))).sum) : ℚ)
  let neg : ℚ := 0.15 *
    (((qualityNegative.map (fun cat => cat.2.countP (fun p => hasMatch p text))).sum) : ℚ)
  let priceAdj : ℚ := match price with
    | some pr => if pr < 1 then -0.2 else if 10000 < pr then -0.3 else 0
    | none => 0
  let lenBonus : ℚ := if 100 < text.length then 0.1 else 0
  ratMax 0 (ratMin 1 (0.5 + pos - neg + priceAdj + lenBonus))

/-- The canonical SKU as a function of the normalized components, used to
state that the SKU depends only on them. -/
def skuFromNorm (name_norm : String) (set_code number_norm rarity_norm : Option String)
    (finish_norm : String) (grade : Option Int) : String :=
  String.intercalate "_"
    ([set_code.getD "", number_norm.getD "", replaceSpaces name_norm,
      pyOrDefault rarity_norm "Unknown"] ++
      (if finish_norm ≠ "Regular" then [replaceSpaces finish_norm] else []) ++
      (match grade with
       | some g => if g ≠ 0 then ["PSA" ++ toString g] else []
       | none => []))

/-! ## Concrete values used by witnesses -/

/-- A trivial fuzzy-matching oracle (never consulted on the concrete inputs
below: they all hit the direct substring mapping). -/
def fzNone : Fuzzy := fun _ _ => none

/-- The entity resolved from `("Charizard ex", "BRS", "025", "Rare")` with
grade 0. -/
def cardEntityGradeZero : CardEntity := {
  canonical_sku := "BRS_025_Charizard_ex_Rare"
  set_code := "BRS"
  card_number := "025"
  name_normalized := "Charizard ex"
  rarity := "Rare"
  finish := "Regular"
  grade := some 0
  language := "EN"
  confidence := 100 }

/-- The entity resolved from `("Charizard ex", "BRS", "025", "Rare")` with no
grade. -/
def cardEntityNoGrade : CardEntity := {
  canonical_sku := "BRS_025_Charizard_ex_Rare"
  set_code := "BRS"
  card_number := "025"
  name_normalized := "Charizard ex"
  rarity := "Rare"
  finish := "Regular"
  grade := none
  language := "EN"
  confidence := 100 }

/-- A concrete continuation for the orchestrator-gate witness: it would
return an entity, so a `none` result demonstrates that the gate fired. -/
def enhancedStub : EnhancedCardEntity := {
  canonical_sku := "BRS_025_Charizard_ex_Rare"
  set_code := "BRS"
  card_number := "025"
  name_normalized := "Charizard ex"
  rarity := "Rare"
  finish := "Regular"
  grade := none
  language := "EN"
  confidence := 100
  filter_quality := .ACCEPTABLE
  card_type := .SINGLE_CARD
  filter_confidence := 1
  source_title := ""
  validation_reasons := [] }

/-! ## Helper lemmas -/

/-- If some exclusion pattern matches, the exclusion check fires. -/
theorem checkImmediateExclusions_fst_of_match (text : List Char)
    (h : ∃ p ∈ immediateExclusions, hasMatch p.2 text = true) :
    (checkImmediateExclusions text).1 = true := by
  obtain ⟨p, hp, hm⟩ := h
  unfold checkImmediateExclusions
  simp only [decide_eq_true_eq, List.length_map]
  exact List.length_pos.mpr (List.ne_nil_of_mem (List.mem_filter.mpr ⟨hp, hm⟩))

/-- If the exclusion check fires, its reason list is non-empty. -/
theorem checkImmediateExclusions_snd_ne_nil (text : List Char)
    (h : (checkImmediateExclusions text).1 = true) :
    (checkImmediateExclusions text).2 ≠ [] := by
  have hl : 0 < (checkImmediateExclusions text).2.length := by
    unfold checkImmediateExclusions at h ⊢
    simpa using h
  exact List.length_pos.mp hl

/-- Folding `+step` over the matching elements adds `step` per match. -/
theorem foldl_if_add_countP {α : Type} (f : α → Bool) (step : ℚ) (l : List α) :
    ∀ c : ℚ, l.foldl (fun s p => if f p then s + step else s) c
      = c + step * (l.countP f : ℚ) := by
  induction l with
  | nil => intro c; simp [List.countP_nil]
  | cons a t ih =>
      intro c
      simp only [List.foldl_cons, List.countP_cons]
      by_cases h : f a = true <;> simp only [h, if_true, if_false, ih] <;> push_cast <;> ring

/-- Folding `−step` over the matching elements subtracts `step` per match. -/
theorem foldl_if_sub_countP {α : Type} (f : α → Bool) (step : ℚ) (l : List α) :
    ∀ c : ℚ, l.foldl (fun s p => if f p then s - step else s) c
      = c - step * (l.countP f : ℚ) := by
  induction l with
  | nil => intro c; simp [List.countP_nil]
  | cons a t ih =>
      intro c
      simp only [List.foldl_cons, List.countP_cons]
      by_cases h : f a = true <;> simp only [h, if_true, if_false, ih] <;> push_cast <;> ring

/-- The nested category/pattern fold adds `step` per matching pattern across
all categories. -/
theorem foldl_nested_add {α β : Type} (g : α → List β) (f : β → Bool) (step : ℚ)
    (l : List α) : ∀ c : ℚ,
    l.foldl (fun s cat => (g cat).foldl (fun s2 p => if f p then s2 + step else s2) s) c
      = c + step * ((l.map (fun cat => (g cat).countP f)).sum : ℚ) := by
  induction l with
  | nil => intro c; simp
  | cons a t ih =>
      intro c
      simp only [List.foldl_cons, List.map_cons, List.sum_cons]
      rw [foldl_if_add_countP, ih]
      push_cast
      ring

/-- The nested category/pattern fold subtracts `step` per matching pattern
across all categories. -/
theorem foldl_nested_sub {α β : Type} (g : α → List β) (f : β → Bool) (step : ℚ)
    (l : List α) : ∀ c : ℚ,
    l.foldl (fun s cat => (g cat).foldl (fun s2 p => if f p then s2 - step else s2) s) c
      = c - step * ((l.map (fun cat => (g cat).countP f)).sum : ℚ) := by
  induction l with
  | nil => intro c; simp
  | cons a t ih =>
      intro c
      simp only [List.foldl_cons, List.map_cons, List.sum_cons]
      rw [foldl_if_sub_countP, ih]
      push_cast
      ring

/-- The source quality score equals the per-pattern closed form. -/
theorem calculateQualityScore_eq_amended (text : List Char) (price : Option ℚ) :
    calculateQualityScore text price = amendedQualityScoreC7 text price := by
  simp only [calculateQualityScore, amendedQualityScoreC7]
  rw [foldl_nested_add, foldl_nested_sub]
  simp only [Nat.cast_list_sum, List.map_map, Function.comp_def]
  rcases price with _ | pr <;> dsimp only <;> split_ifs <;> ring_nf

/-- Characterization of the EXCELLENT tier threshold. -/
theorem scoreToQuality_excellent (s : ℚ) :
    scoreToQuality s = ListingQuality.EXCELLENT ↔ 0.8 ≤ s := by
  unfold scoreToQuality
  split_ifs <;> simp_all [not_and, not_lt, not_le]

/-- Characterization of the GOOD tier band. -/
theorem scoreToQuality_good (s : ℚ) :
    scoreToQuality s = ListingQuality.GOOD ↔ 0.65 ≤ s ∧ s < 0.8 := by
  unfold scoreToQuality
  split_ifs <;> simp_all [not_and, not_lt, not_le]

/-- Characterization of the ACCEPTABLE tier band. -/
theorem scoreToQuality_acceptable (s : ℚ) :
    scoreToQuality s = ListingQuality.ACCEPTABLE ↔ 0.5 ≤ s ∧ s < 0.65 := by
  unfold scoreToQuality
  split_ifs <;> simp_all [not_and, not_lt, not_le] <;>
    first
      | linarith
      | (intro h2; linarith)

/-- Characterization of the POOR tier band. -/
theorem scoreToQuality_poor (s : ℚ) :
    scoreToQuality s = ListingQuality.POOR ↔ 0.3 ≤ s ∧ s < 0.5 := by
  unfold scoreToQuality
  split_ifs <;> simp_all [not_and, not_lt, not_le] <;>
    first
      | linarith
      | (intro h2; linarith)

/-- Characterization of the JUNK tier band. -/
theorem scoreToQuality_junk (s : ℚ) :
    scoreToQuality s = ListingQuality.JUNK ↔ s < 0.3 := by
  unfold scoreToQuality
  split_ifs <;> simp_all [not_and, not_lt, not_le] <;> linarith

/-! ## Claim theorems -/

/-- C2: for every input (title, description, price), the FilterResult
returned by `filter_listing` satisfies: if `card_type` is UNKNOWN or
`quality` is JUNK, then `is_valid` is false. -/
theorem c2_unknown_or_junk_never_valid (title description : String) (price : Option ℚ)
    (h : (filterListing title description price).card_type = CardType.UNKNOWN ∨
      (filterListing title description price).quality = ListingQuality.JUNK) :
    (filterListing title description price).is_valid = false := by
  by_cases hc : (checkImmediateExclusions (fullTextOf title description)).1
  · simp [filterListing, hc]
  · simp only [filterListing, hc, Bool.false_eq_true, if_false] at h ⊢
    rcases h with h | h <;> simp [h]

/-- C2 witness: a listing whose text matches nothing classifies as UNKNOWN
and is rejected. -/
theorem c2_unknown_or_junk_never_valid_witness :
    (filterListing "a" "" none).is_valid = false :=
  c2_unknown_or_junk_never_valid "a" "" none (Or.inl (by with_unfolding_all decide))

/-- C3: whenever the lower-cased concatenation of title and description
matches at least one immediate-exclusion pattern, `filter_listing` returns
`is_valid = false`, `quality = JUNK`, `card_type = UNKNOWN` and
`confidence_score = 0`, for every price. -/
theorem c3_exclusion_short_circuit (title description : String) (price : Option ℚ)
    (h : ∃ p ∈ immediateExclusions, hasMatch p.2 (fullTextOf title description) = true) :
    (filterListing title description price).is_valid = false ∧
    (filterListing title description price).quality = ListingQuality.JUNK ∧
    (filterListing title description price).card_type = CardType.UNKNOWN ∧
    (filterListing title description price).confidence_score = 0 := by
  have hc := checkImmediateExclusions_fst_of_match _ h
  simp [filterListing, hc]

/-- C3 witness: "fake card" matches the fake/proxy exclusion pattern, at an
arbitrary price. -/
theorem c3_exclusion_short_circuit_witness :
    (filterListing "fake card" "" (some 5)).is_valid = false ∧
    (filterListing "fake card" "" (some 5)).quality = ListingQuality.JUNK ∧
    (filterListing "fake card" "" (some 5)).card_type = CardType.UNKNOWN ∧
    (filterListing "fake card" "" (some 5)).confidence_score = 0 :=
  c3_exclusion_short_circuit "fake card" "" (some 5)
    ⟨immediateExclusions.get ⟨8, by with_unfolding_all decide⟩,
     List.get_mem _ _ _, by with_unfolding_all decide⟩

/-- C5: whenever the filter classifies a listing as BULK_LOT, ACCESSORY,
DIGITAL_CODE or CUSTOM_PROXY, `resolve_ebay_listing` returns None — for
every continuation (the post-gate steps 3–5), hence even when the filter's
own validity gate marked the listing valid. -/
theorem c5_type_gate (rest : FilterResult → Option EnhancedCardEntity)
    (title description : String) (price : Option ℚ)
    (h : (filterListing title description price).card_type = CardType.BULK_LOT ∨
      (filterListing title description price).card_type = CardType.ACCESSORY ∨
      (filterListing title description price).card_type = CardType.DIGITAL_CODE ∨
      (filterListing title description price).card_type = CardType.CUSTOM_PROXY) :
    resolveEbayListing rest title description price = none := by
  simp only [resolveEbayListing]
  split
  · rfl
  · split
    · rfl
    · next h2 =>
      exfalso
      rcases h with h | h | h | h <;> rw [h] at h2 <;> simp at h2

/-- C5 witness: "card protector" classifies as ACCESSORY, and the resolver
returns None even with a continuation that would have produced an entity. -/
theorem c5_type_gate_witness :
    resolveEbayListing (fun _ => some enhancedStub) "card protector" "" none = none :=
  c5_type_gate (fun _ => some enhancedStub) "card protector" "" none
    (Or.inr (Or.inl (by with_unfolding_all decide)))

/-- C10 counterexample: the title "a" is rejected (no card type detected),
yet its reasons list is empty — refuting the claim that every rejection
carries a non-empty reasons list. -/
theorem c10_counterexample :
    (filterListing "a" "" none).is_valid = false ∧
    (filterListing "a" "" none).reasons = [] := by
  with_unfolding_all decide

/-- C10 (amended): a rejection produced by the immediate-exclusion branch
carries a non-empty reasons list; every other result (including rejections
decided by the final validity gate) carries an empty reasons list.  The call
is a total function, so it never raises. -/
theorem c10_reasons_amended (title description : String) (price : Option ℚ) :
    ((checkImmediateExclusions (fullTextOf title description)).1 = true →
      (filterListing title description price).reasons ≠ []) ∧
    ((checkImmediateExclusions (fullTextOf title description)).1 = false →
      (filterListing title description price).reasons = []) := by
  constructor
  · intro hc
    have hne := checkImmediateExclusions_snd_ne_nil _ hc
    simpa [filterListing, hc] using hne
  · intro hc
    simp [filterListing, hc]

/-- C10 witness: the two branches of the amended claim at concrete inputs. -/
theorem c10_reasons_amended_witness :
    (filterListing "fake card" "" none).reasons ≠ [] ∧
    (filterListing "a" "" none).reasons = [] :=
  ⟨(c10_reasons_amended "fake card" "" none).1 (by with_unfolding_all decide),
   (c10_reasons_amended "a" "" none).2 (by with_unfolding_all decide)⟩

/-- C7 counterexample: the non-excluded listing "centering corners" matches
two patterns of the single positive category `detailed_condition`, so the
code's score is 0.7 (tier GOOD) while the claim's per-category formula gives
0.6 (tier ACCEPTABLE). -/
theorem c7_counterexample :
    (checkImmediateExclusions (fullTextOf "centering corners" "")).1 = false ∧
    calculateQualityScore (fullTextOf "centering corners" "") none = 0.7 ∧
    claimQualityScoreC7 (fullTextOf "centering corners" "") none = 0.6 ∧
    ¬ ((0.7 : ℚ) = 0.6) ∧
    (filterListing "centering corners" "" none).quality = ListingQuality.GOOD ∧
    scoreToQuality (claimQualityScoreC7 (fullTextOf "centering corners" "") none) =
      ListingQuality.ACCEPTABLE := by
  with_unfolding_all decide

/-- C7 (amended): for every non-excluded listing, the quality tier equals the
tier of the score 0.5 + 0.1 per matched positive indicator pattern − 0.15
per matched negative indicator pattern (counted per pattern, not per
category), with the price penalties and length bonus, clamped to the unit
interval; and the tier thresholds are ≥0.8 EXCELLENT, ≥0.65 GOOD,
≥0.5 ACCEPTABLE, ≥0.3 POOR, else JUNK (first threshold wins). -/
theorem c7_quality_scoring_amended (title description : String) (price : Option ℚ) :
    ((checkImmediateExclusions (fullTextOf title description)).1 = false →
      (filterListing title description price).quality =
        scoreToQuality (amendedQualityScoreC7 (fullTextOf title description) price)) ∧
    (∀ s : ℚ,
      (scoreToQuality s = ListingQuality.EXCELLENT ↔ 0.8 ≤ s) ∧
      (scoreToQuality s = ListingQuality.GOOD ↔ 0.65 ≤ s ∧ s < 0.8) ∧
      (scoreToQuality s = ListingQuality.ACCEPTABLE ↔ 0.5 ≤ s ∧ s < 0.65) ∧
      (scoreToQuality s = ListingQuality.POOR ↔ 0.3 ≤ s ∧ s < 0.5) ∧
      (scoreToQuality s = ListingQuality.JUNK ↔ s < 0.3)) := by
  constructor
  · intro hc
    simp only [filterListing, hc, Bool.false_eq_true, if_false]
    rw [calculateQualityScore_eq_amended]
  · intro s
    exact ⟨scoreToQuality_excellent s, scoreToQuality_good s, scoreToQuality_acceptable s,
      scoreToQuality_poor s, scoreToQuality_junk s⟩

/-- C7 witness: the amended scoring applied to the concrete non-excluded
listing "centering corners". -/
theorem c7_quality_scoring_amended_witness :
    (filterListing "centering corners" "" none).quality =
      scoreToQuality (amendedQualityScoreC7 (fullTextOf "centering corners" "") none) :=
  (c7_quality_scoring_amended "centering corners" "" none).1 (by with_unfolding_all decide)

/-- C8 counterexample: on Scenario A's input the detected set is "BRS"
(Brilliant Stars), not "BST" (which the code reserves for Battle Styles) —
refuting the claim's expected `detected_set="BST"`. -/
theorem c8_counterexample :
    (filterListing "Charizard VMAX 074/172 Brilliant Stars Secret Rare PSA 10 Mint" ""
      (some 299.99)).detected_set = some "BRS" ∧
    ¬ ((some "BRS" : Option String) = some "BST") := by
  with_unfolding_all decide

/-- C8 (amended): Scenario A returns `is_valid=true`,
`card_type=SINGLE_CARD`, `detected_set="BRS"`, `detected_number="074"` and
`detected_grade=10`. -/
theorem c8_scenario_a :
    (filterListing "Charizard VMAX 074/172 Brilliant Stars Secret Rare PSA 10 Mint" ""
      (some 299.99)).is_valid = true ∧
    (filterListing "Charizard VMAX 074/172 Brilliant Stars Secret Rare PSA 10 Mint" ""
      (some 299.99)).card_type = CardType.SINGLE_CARD ∧
    (filterListing "Charizard VMAX 074/172 Brilliant Stars Secret Rare PSA 10 Mint" ""
      (some 299.99)).detected_set = some "BRS" ∧
    (filterListing "Charizard VMAX 074/172 Brilliant Stars Secret Rare PSA 10 Mint" ""
      (some 299.99)).detected_number = some "074" ∧
    (filterListing "Charizard VMAX 074/172 Brilliant Stars Secret Rare PSA 10 Mint" ""
      (some 299.99)).detected_grade = some 10 := by
  with_unfolding_all decide

/-- C9 counterexample: the sleeves title trips the accessory
immediate-exclusion pattern, which short-circuits before type detection, so
`card_type` is UNKNOWN — refuting the claim's expected
`card_type=ACCESSORY`. -/
theorem c9_counterexample :
    (filterListing "Pokemon Card Sleeves Ultra Pro 65ct Deck Protectors" ""
      (some 8.99)).card_type = CardType.UNKNOWN ∧
    ¬ (CardType.UNKNOWN = CardType.ACCESSORY) := by
  with_unfolding_all decide

/-- Folding a conditional subtraction of a non-negative amount never
increases the accumulator. -/
theorem foldl_if_sub_le {α : Type} (f : α → Bool) (k : Int) (hk : 0 ≤ k) (l : List α) :
    ∀ c : Int, l.foldl (fun c2 p => if f p then c2 - k else c2) c ≤ c := by
  induction l with
  | nil => intro c; simp
  | cons a t ih =>
      intro c
      simp only [List.foldl_cons]
      split_ifs
      · exact le_trans (ih _) (by linarith)
      · exact ih c

/-- The resolver's confidence never exceeds 100. -/
theorem calcConfidence_le_100 (name : String) (set_info number rarity : Option String) :
    calcConfidence name set_info number rarity ≤ 100 := by
  have hmax : ∀ x : Int, x ≤ 100 → intMax 0 x ≤ 100 := by
    intro x hx
    unfold intMax
    split_ifs <;> linarith
  simp only [calcConfidence]
  apply hmax
  refine le_trans (foldl_if_sub_le _ 15 (by norm_num) _ _) ?_
  split_ifs <;> norm_num

/-- A successful resolution determines the SKU from the normalized
components alone. -/
theorem resolveCard_sku_eq (fz : Fuzzy) (name : String)
    (set_info number rarity finish : Option String) (grade : Option Int) (e : CardEntity)
    (h : resolveCard fz name set_info number rarity finish grade = some e) :
    e.canonical_sku = skuFromNorm (normalizeName name) (setCodeOf set_info)
      (numberNormOf number) (rarityNormOf fz rarity) (finishNormOf fz finish) grade := by
  unfold resolveCard at h
  split at h
  · simp at h
  · split at h
    next sc nn heq1 heq2 =>
      by_cases hA : (normalizeName name = "" ∨ sc = "" ∨ nn = "")
      · rw [if_pos hA] at h
        exact absurd h (by simp)
      · rw [if_neg hA] at h
        by_cases hB : calcConfidence name set_info number rarity < 85
        · rw [if_pos hB] at h
          exact absurd h (by simp)
        · rw [if_neg hB] at h
          rw [Option.some_inj] at h
          subst h
          rw [heq1, heq2]
          rfl
    next => simp at h

/-- C1 counterexample: with grade 0 the code returns a SKU without a PSA
segment (Python truthiness of `if grade:`), while the claim's construction
appends "PSA0" — so the claimed equality fails at this input. -/
theorem c1_counterexample :
    resolveCard fzNone "Charizard ex" (some "BRS") (some "025") (some "Rare") none
      (some 0) = some cardEntityGradeZero ∧
    cardEntityGradeZero.canonical_sku = "BRS_025_Charizard_ex_Rare" ∧
    claimSkuC1 cardEntityGradeZero = "BRS_025_Charizard_ex_Rare_PSA0" ∧
    ¬ (cardEntityGradeZero.canonical_sku = claimSkuC1 cardEntityGradeZero) := by
  with_unfolding_all decide

/-- C1 (amended): every entity returned by `resolve_card` carries a
canonical SKU equal to the underscore-join, in fixed order, of set code,
normalized number, normalized name with spaces replaced by underscores, and
rarity (or "Unknown" when rarity is absent), with the finish (spaces
replaced by underscores) appended only when the normalized finish is not
"Regular", and the segment `PSA<grade>` appended only when a grade is
present and non-zero. -/
theorem c1_sku_construction_amended (fz : Fuzzy) (name : String)
    (set_info number rarity finish : Option String) (grade : Option Int) (e : CardEntity)
    (h : resolveCard fz name set_info number rarity finish grade = some e) :
    e.canonical_sku = amendedSkuC1 e := by
  unfold resolveCard at h
  split at h
  · simp at h
  · split at h
    next sc nn heq1 heq2 =>
      by_cases hA : (normalizeName name = "" ∨ sc = "" ∨ nn = "")
      · rw [if_pos hA] at h
        exact absurd h (by simp)
      · rw [if_neg hA] at h
        by_cases hB : calcConfidence name set_info number rarity < 85
        · rw [if_pos hB] at h
          exact absurd h (by simp)
        · rw [if_neg hB] at h
          rw [Option.some_inj] at h
          subst h
          rfl
    next => simp at h

/-- C1 witness: the amended SKU construction at the concrete grade-0
resolution. -/
theorem c1_sku_construction_amended_witness :
    cardEntityGradeZero.canonical_sku = amendedSkuC1 cardEntityGradeZero :=
  c1_sku_construction_amended fzNone "Charizard ex" (some "BRS") (some "025") (some "Rare")
    none (some 0) cardEntityGradeZero (by with_unfolding_all decide)

/-- C4: whenever `resolve_card` returns an entity, the normalized name, set
code and number were all non-empty and the computed confidence was at least
85; the entity carries exactly that confidence, which lies in [85, 100].
Contrapositively, the resolver returns None (it is a total function, so it
never raises) whenever a required field normalizes to empty or the
confidence falls below 85. -/
theorem c4_resolution_gates (fz : Fuzzy) (name : String)
    (set_info number rarity finish : Option String) (grade : Option Int) (e : CardEntity)
    (h : resolveCard fz name set_info number rarity finish grade = some e) :
    normalizeName name ≠ "" ∧
    pyTruthy (setCodeOf set_info) = true ∧
    pyTruthy (numberNormOf number) = true ∧
    85 ≤ calcConfidence name set_info number rarity ∧
    e.confidence = calcConfidence name set_info number rarity ∧
    85 ≤ e.confidence ∧ e.confidence ≤ 100 := by
  unfold resolveCard at h
  split at h
  · simp at h
  · split at h
    next sc nn heq1 heq2 =>
      by_cases hA : (normalizeName name = "" ∨ sc = "" ∨ nn = "")
      · rw [if_pos hA] at h
        exact absurd h (by simp)
      · rw [if_neg hA] at h
        push_neg at hA
        obtain ⟨hname, hsc, hnn⟩ := hA
        by_cases hB : calcConfidence name set_info number rarity < 85
        · rw [if_pos hB] at h
          exact absurd h (by simp)
        · rw [if_neg hB] at h
          rw [Option.some_inj] at h
          subst h
          push_neg at hB
          refine ⟨hname, ?_, ?_, hB, rfl, hB, calcConfidence_le_100 _ _ _ _⟩
          · simp [pyTruthy, heq1, hsc]
          · simp [pyTruthy, heq2, hnn]
    next => simp at h

/-- C4 witness: the gate conclusions at a concrete successful resolution. -/
theorem c4_resolution_gates_witness :
    normalizeName "Charizard ex" ≠ "" ∧
    pyTruthy (setCodeOf (some "BRS")) = true ∧
    pyTruthy (numberNormOf (some "025")) = true ∧
    85 ≤ calcConfidence "Charizard ex" (some "BRS") (some "025") (some "Rare") ∧
    cardEntityNoGrade.confidence =
      calcConfidence "Charizard ex" (some "BRS") (some "025") (some "Rare") ∧
    85 ≤ cardEntityNoGrade.confidence ∧ cardEntityNoGrade.confidence ≤ 100 :=
  c4_resolution_gates fzNone "Charizard ex" (some "BRS") (some "025") (some "Rare") none none
    cardEntityNoGrade (by with_unfolding_all decide)

/-- C6 counterexample: "Charizard ex" and "charizard EX" do not normalize to
the same canonical value — name normalization preserves the case of the
Pokemon name — so the two calls yield different SKUs, refuting the claim's
example. -/
theorem c6_counterexample :
    (resolveCard fzNone "Charizard ex" (some "BRS") (some "025") (some "Rare") none none).map
      (fun e => e.canonical_sku) = some "BRS_025_Charizard_ex_Rare" ∧
    (resolveCard fzNone "charizard EX" (some "BRS") (some "025") (some "Rare") none none).map
      (fun e => e.canonical_sku) = some "BRS_025_charizard_ex_Rare" ∧
    ¬ ((some "BRS_025_Charizard_ex_Rare" : Option String) =
        some "BRS_025_charizard_ex_Rare") := by
  with_unfolding_all decide

/-- C6 (amended): `resolve_card` is deterministic (it is a pure function:
two calls with identical arguments yield identical results), and any two
successful calls whose fields normalize to the same canonical values yield
the same canonical SKU.  (Name normalization is case-preserving, so
"Charizard ex" and "charizard EX" do not normalize to the same value.) -/
theorem c6_sku_determinism_amended :
    (∀ (fz : Fuzzy) (name : String) (set_info number rarity finish : Option String)
      (grade : Option Int),
      resolveCard fz name set_info number rarity finish grade =
        resolveCard fz name set_info number rarity finish grade) ∧
    (∀ (fz : Fuzzy) (n1 : String) (si1 num1 r1 f1 : Option String) (g1 : Option Int)
      (n2 : String) (si2 num2 r2 f2 : Option String) (g2 : Option Int) (e1 e2 : CardEntity),
      normalizeName n1 = normalizeName n2 →
      setCodeOf si1 = setCodeOf si2 →
      numberNormOf num1 = numberNormOf num2 →
      rarityNormOf fz r1 = rarityNormOf fz r2 →
      finishNormOf fz f1 = finishNormOf fz f2 →
      g1 = g2 →
      resolveCard fz n1 si1 num1 r1 f1 g1 = some e1 →
      resolveCard fz n2 si2 num2 r2 f2 g2 = some e2 →
      e1.canonical_sku = e2.canonical_sku) := by
  constructor
  · intro fz name si num r f g
    rfl
  · intro fz n1 si1 num1 r1 f1 g1 n2 si2 num2 r2 f2 g2 e1 e2 hn hs hnum hr hf hg h1 h2
    rw [resolveCard_sku_eq fz n1 si1 num1 r1 f1 g1 e1 h1,
      resolveCard_sku_eq fz n2 si2 num2 r2 f2 g2 e2 h2, hn, hs, hnum, hr, hf, hg]

/-- C6 witness: two calls whose fields normalize identically ("Charizard  ex"
with a doubled space and number "025/165" versus "Charizard ex" and "025")
yield the same SKU. -/
theorem c6_sku_determinism_amended_witness :
    (resolveCard fzNone "Charizard  ex" (some "BRS") (some "025/165") (some "Rare") none
      none).map (fun e => e.canonical_sku) =
    (resolveCard fzNone "Charizard ex" (some "BRS") (some "025") (some "Rare") none
      none).map (fun e => e.canonical_sku) := by
  have h1 : resolveCard fzNone "Charizard  ex" (some "BRS") (some "025/165") (some "Rare")
      none none = some cardEntityNoGrade := by with_unfolding_all decide
  have h2 : resolveCard fzNone "Charizard ex" (some "BRS") (some "025") (some "Rare")
      none none = some cardEntityNoGrade := by with_unfolding_all decide
  have hsku := c6_sku_determinism_amended.2 fzNone "Charizard  ex" (some "BRS")
    (some "025/165") (some "Rare") none none "Charizard ex" (some "BRS") (some "025")
    (some "Rare") none none cardEntityNoGrade cardEntityNoGrade
    (by with_unfolding_all decide) rfl (by with_unfolding_all decide) rfl rfl rfl h1 h2
  calc (resolveCard fzNone "Charizard  ex" (some "BRS") (some "025/165") (some "Rare") none
          none).map (fun e => e.canonical_sku)
      = some cardEntityNoGrade.canonical_sku := by rw [h1]; rfl
    _ = some cardEntityNoGrade.canonical_sku := congrArg some hsku
    _ = (resolveCard fzNone "Charizard ex" (some "BRS") (some "025") (some "Rare") none
          none).map (fun e => e.canonical_sku) := by rw [h2]; rfl

/-- C9 (amended): Scenario C is rejected through the immediate-exclusion
short-circuit: `is_valid=false`, `card_type=UNKNOWN`, `quality=JUNK`. -/
theorem c9_scenario_c :
    (filterListing "Pokemon Card Sleeves Ultra Pro 65ct Deck Protectors" ""
      (some 8.99)).is_valid = false ∧
    (filterListing "Pokemon Card Sleeves Ultra Pro 65ct Deck Protectors" ""
      (some 8.99)).card_type = CardType.UNKNOWN ∧
    (filterListing "Pokemon Card Sleeves Ultra Pro 65ct Deck Protectors" ""
      (some 8.99)).quality = ListingQuality.JUNK := by
  with_unfolding_all decide

end TCG
